import Mathlib

/-!
Verification development for the advanced-todo-system repository.

The repository ships three source files: `backend/app.py` (the Flask HTTP
layer), `backend/config.py` (static configuration) and `tests/test_api.py`.
The `my_todo_lib` TaskManager that the HTTP layer drives is an external
dependency whose code is not in the repository, so the manager's data model
and operations are modelled from the specification (each such definition
says so in its doc comment), while the HTTP handlers are embedded directly
from `backend/app.py`.

Python exceptions are embedded as an explicit error type
(`ValidationError`, a `ValueError` subclass, and `NotFoundError`, a
`KeyError` subclass); mutable in-place updates become explicit
state-passing on a `Store` value; handler bodies return the HTTP status,
the `success` flag of the JSON body, the resulting store, and the trace of
mutating manager calls (including `save`) that the handler issued.
-/

namespace Todo

/-- Task status enumeration, from the spec data model (§3):
`pending`, `in_progress`, `done`. -/
inductive TaskStatus where
  | pending
  | in_progress
  | done
deriving DecidableEq, Repr

/-- Task priority enumeration, from the spec data model (§3):
`low`, `medium`, `high`. -/
inductive Priority where
  | low
  | medium
  | high
deriving DecidableEq, Repr

/-- A task, from the spec data model (§3): integer id, title, description,
status, priority.  Ownership is containment in a list's task collection. -/
structure Task where
  id : Nat
  title : String
  description : String
  status : TaskStatus
  priority : Priority
deriving DecidableEq, Repr

/-- A list, from the spec data model (§3): integer id, name, description,
and the ordered collection of owned tasks. -/
structure TaskList where
  id : Nat
  name : String
  description : String
  tasks : List Task
deriving DecidableEq, Repr

/-- The whole in-memory store: the lists in creation order plus the
never-reused id counters for lists and (globally) for tasks. -/
structure Store where
  lists : List TaskList
  nextListId : Nat
  nextTaskId : Nat
deriving DecidableEq, Repr

/-- The empty store the manager starts from (`load()` on a missing file
initializes an empty store).  Ids start at 1, matching the spec example
(`create list {name: "Work"} → id=1`). -/
def Store.empty : Store :=
  { lists := [], nextListId := 1, nextTaskId := 1 }

/-- The manager's error taxonomy (spec §7): `ValidationError` is a
`ValueError`, `NotFoundError` is a `KeyError`.  `otherExc` stands for any
other Python exception reaching a handler's catch-all. -/
inductive MgrErr where
  | validation
  | notFound
  | otherExc
deriving DecidableEq, Repr

namespace Store

/-- Modelled from the spec: `get_lists()` returns all lists in creation
order (TaskManager is not in the repository sources). -/
def get_lists (s : Store) : List TaskList :=
  s.lists

/-- Modelled from the spec: `get_list(list_id)` is a lookup by id,
absent (not an error) when no list has that id. -/
def get_list (s : Store) (list_id : Nat) : Option TaskList :=
  s.lists.find? (fun l => l.id = list_id)

/-- Modelled from the spec: `create_list(name, description)` validates the
name non-empty (`ValidationError` otherwise), allocates the next list id,
stores an empty-task list and returns it. -/
def create_list (s : Store) (name description : String) :
    Except MgrErr (TaskList × Store) :=
  if name = "" then .error .validation
  else
    let l : TaskList :=
      { id := s.nextListId, name := name, description := description,
        tasks := [] }
    .ok (l, { s with lists := s.lists ++ [l],
                      nextListId := s.nextListId + 1 })

/-- Modelled from the spec: `rename_list(list_id, new_name)` fails with
`NotFoundError` if the list is absent, `ValidationError` if the new name is
empty, and otherwise mutates the name in place. -/
def rename_list (s : Store) (list_id : Nat) (new_name : String) :
    Except MgrErr Store :=
  match s.get_list list_id with
  | none => .error .notFound
  | some _ =>
    if new_name = "" then .error .validation
    else
      let renamed := s.lists.map (fun l =>
        if l.id = list_id then { l with name := new_name } else l)
      .ok { s with lists := renamed }

/-- Modelled from the spec: `delete_list(list_id)` fails with
`NotFoundError` if absent, otherwise removes the list and all its tasks
(the cascade: the owned tasks live only inside the list). -/
def delete_list (s : Store) (list_id : Nat) : Except MgrErr Store :=
  match s.get_list list_id with
  | none => .error .notFound
  | some _ => .ok { s with lists := s.lists.filter (fun l => l.id ≠ list_id) }

/-- Modelled from the spec: `add_task_to_list(list_id, task)` fails with
`NotFoundError` if the list is absent, assigns the next global task id,
sets default status `pending` and a default priority when unset, and
appends the task to the list's collection.  The incoming task carries the
caller-supplied fields; status and priority may be unset. -/
def add_task_to_list (s : Store) (list_id : Nat) (title description : String)
    (status : Option TaskStatus) (priority : Option Priority) :
    Except MgrErr (Task × Store) :=
  match s.get_list list_id with
  | none => .error .notFound
  | some _ =>
    let t : Task :=
      { id := s.nextTaskId, title := title, description := description,
        status := status.getD .pending, priority := priority.getD .medium }
    .ok (t, { s with
      lists := s.lists.map (fun l =>
        if l.id = list_id then { l with tasks := l.tasks ++ [t] } else l),
      nextTaskId := s.nextTaskId + 1 })

/-- Modelled from the spec: `get_tasks(list_id)` returns the tasks owned by
the list in insertion order, `NotFoundError` if the list is absent. -/
def get_tasks (s : Store) (list_id : Nat) : Except MgrErr (List Task) :=
  match s.get_list list_id with
  | none => .error .notFound
  | some l => .ok l.tasks

/-- Modelled from the spec: `get_task(list_id, task_id)` is a lookup within
one list only; absent when the list or the task is not there. -/
def get_task (s : Store) (list_id task_id : Nat) : Option Task :=
  (s.get_list list_id).bind (fun l => l.tasks.find? (fun t => t.id = task_id))

end Store

/-- A partial update for a task, the embedding of the `**fields` keyword
dictionary the HTTP layer forwards to `update_task`: each known field is
present or absent, and `unknownKeys` collects any other keys of the
dictionary. -/
structure TaskPatch where
  title : Option String
  description : Option String
  status : Option TaskStatus
  priority : Option Priority
  unknownKeys : List String
deriving DecidableEq, Repr

/-- The empty patch, the embedding of the `{}` request body. -/
def TaskPatch.empty : TaskPatch :=
  { title := none, description := none, status := none, priority := none,
    unknownKeys := [] }

/-- A patch is empty when it carries no key at all, so that the Python
truthiness test `if not data` rejects it. -/
def TaskPatch.isEmpty (p : TaskPatch) : Bool :=
  p.title.isNone && p.description.isNone && p.status.isNone &&
    p.priority.isNone && p.unknownKeys.isEmpty

/-- Apply the provided fields of a patch to a task, leaving absent fields
unchanged. -/
def Task.applyPatch (t : Task) (p : TaskPatch) : Task :=
  { t with
    title := p.title.getD t.title,
    description := p.description.getD t.description,
    status := p.status.getD t.status,
    priority := p.priority.getD t.priority }

namespace Store

/-- Modelled from the spec: `update_task(list_id, task_id, **fields)` fails
with `NotFoundError` if the list or the task is absent, rejects unknown
fields with `ValidationError` (the policy the spec requires in §4.1), and
otherwise applies only the provided fields. -/
def update_task (s : Store) (list_id task_id : Nat) (p : TaskPatch) :
    Except MgrErr Store :=
  match s.get_list list_id with
  | none => .error .notFound
  | some l =>
    match l.tasks.find? (fun t => t.id = task_id) with
    | none => .error .notFound
    | some _ =>
      if p.unknownKeys ≠ [] then .error .validation
      else .ok { s with lists := s.lists.map (fun l2 =>
        if l2.id = list_id then
          { l2 with tasks := l2.tasks.map (fun t =>
              if t.id = task_id then t.applyPatch p else t) }
        else l2) }

/-- Modelled from the spec: `delete_task(list_id, task_id)` fails with
`NotFoundError` if the list or the task is absent, otherwise removes the
task from the list's collection. -/
def delete_task (s : Store) (list_id task_id : Nat) : Except MgrErr Store :=
  match s.get_list list_id with
  | none => .error .notFound
  | some l =>
    match l.tasks.find? (fun t => t.id = task_id) with
    | none => .error .notFound
    | some _ => .ok { s with lists := s.lists.map (fun l2 =>
        if l2.id = list_id then
          { l2 with tasks := l2.tasks.filter (fun t => t.id ≠ task_id) }
        else l2) }

/-- The per-list removal step of a move: drop the task from the source
list's collection, leave every other list alone. -/
def removeTaskStep (source_list_id task_id : Nat) (l : TaskList) : TaskList :=
  if l.id = source_list_id then
    { l with tasks := l.tasks.filter (fun t2 => t2.id ≠ task_id) }
  else l

/-- The per-list append step of a move: append the task to the target
list's collection, leave every other list alone. -/
def appendTaskStep (target_list_id : Nat) (t : Task) (l : TaskList) : TaskList :=
  if l.id = target_list_id then { l with tasks := l.tasks ++ [t] } else l

/-- Modelled from the spec: `move_task_to_list(source_list_id, task_id,
target_list_id)` fails with `NotFoundError` if either list or the task
within the source is absent; otherwise it removes the task from the source
list's collection and appends it to the target list's collection in one
operation (the whole move is a single state transition of the store, which
is the shallow embedding of the spec's atomicity requirement under the
single-threaded model of §5), returning the moved task. -/
def move_task_to_list (s : Store) (source_list_id task_id target_list_id : Nat) :
    Except MgrErr (Task × Store) :=
  match s.get_list source_list_id with
  | none => .error .notFound
  | some src =>
    match src.tasks.find? (fun t => t.id = task_id) with
    | none => .error .notFound
    | some t =>
      match s.get_list target_list_id with
      | none => .error .notFound
      | some _ =>
        let removed := s.lists.map (removeTaskStep source_list_id task_id)
        let appended := removed.map (appendTaskStep target_list_id t)
        .ok (t, { s with lists := appended })

end Store

/-- String form of a task status in the persisted document (statuses travel
as strings in the API and in the JSON file, e.g. `"in_progress"`). -/
def TaskStatus.encode : TaskStatus → String
  | .pending => "pending"
  | .in_progress => "in_progress"
  | .done => "done"

/-- Parse a persisted status string back to the enumeration; any other
string is a malformed document. -/
def TaskStatus.decode : String → Option TaskStatus
  | "pending" => some .pending
  | "in_progress" => some .in_progress
  | "done" => some .done
  | _ => none

/-- String form of a priority in the persisted document. -/
def Priority.encode : Priority → String
  | .low => "low"
  | .medium => "medium"
  | .high => "high"

/-- Parse a persisted priority string back to the enumeration. -/
def Priority.decode : String → Option Priority
  | "low" => some .low
  | "medium" => some .medium
  | "high" => some .high
  | _ => none

/-- A task as it sits in the persisted document: the full attribute set
(id, title, description, status, priority), enumerations as strings. -/
structure SavedTask where
  id : Nat
  title : String
  description : String
  status : String
  priority : String
deriving DecidableEq, Repr

/-- A list as it sits in the persisted document, with its ordered tasks. -/
structure SavedList where
  id : Nat
  name : String
  description : String
  tasks : List SavedTask
deriving DecidableEq, Repr

/-- The persisted document (spec §6): a single structured document with the
next-id counters and the ordered collection of lists, each with its ordered
tasks. -/
structure SavedDoc where
  nextListId : Nat
  nextTaskId : Nat
  lists : List SavedList
deriving DecidableEq, Repr

/-- Serialize one task for the persisted document. -/
def Task.save (t : Task) : SavedTask :=
  { id := t.id, title := t.title, description := t.description,
    status := t.status.encode, priority := t.priority.encode }

/-- Parse one task of the persisted document. -/
def SavedTask.load (t : SavedTask) : Option Task := do
  let st ← TaskStatus.decode t.status
  let pr ← Priority.decode t.priority
  pure { id := t.id, title := t.title, description := t.description,
         status := st, priority := pr }

/-- Serialize one list for the persisted document. -/
def TaskList.save (l : TaskList) : SavedList :=
  { id := l.id, name := l.name, description := l.description,
    tasks := l.tasks.map Task.save }

/-- Parse the ordered task collection of a persisted list; parsing fails as
soon as one task is malformed. -/
def SavedTask.loadAll : List SavedTask → Option (List Task)
  | [] => some []
  | t :: ts => do
    let x ← t.load
    let xs ← SavedTask.loadAll ts
    pure (x :: xs)

/-- Parse one list of the persisted document. -/
def SavedList.load (l : SavedList) : Option TaskList := do
  let ts ← SavedTask.loadAll l.tasks
  pure { id := l.id, name := l.name, description := l.description,
         tasks := ts }

/-- Modelled from the spec: `save()` serializes the full store (counters
and all lists with their tasks) to the single structured document, fully
overwriting any previous content. -/
def Store.save (s : Store) : SavedDoc :=
  { nextListId := s.nextListId, nextTaskId := s.nextTaskId,
    lists := s.lists.map TaskList.save }

/-- Parse the ordered list collection of the persisted document. -/
def SavedList.loadAll : List SavedList → Option (List TaskList)
  | [] => some []
  | l :: ls => do
    let x ← l.load
    let xs ← SavedList.loadAll ls
    pure (x :: xs)

/-- Modelled from the spec: `load()` deserializes the full store from the
persisted document; a malformed document (unknown enumeration string)
yields no store. -/
def SavedDoc.load (d : SavedDoc) : Option Store := do
  let ls ← SavedList.loadAll d.lists
  pure { lists := ls, nextListId := d.nextListId, nextTaskId := d.nextTaskId }

/-- The mutating manager calls (and `save`) a handler can issue; read-only
calls (`get_lists`, `get_list`, `get_tasks`, `get_task`) never change the
store or the file and are not traced. -/
inductive MgrCall where
  | createList
  | renameList
  | deleteList
  | addTask
  | updateTask
  | deleteTask
  | moveTask
  | save
deriving DecidableEq, Repr

/-- What an embedded HTTP handler returns: the status code, the `success`
flag of the JSON body, the store after the request, and the trace of
mutating manager calls (including `save`) the handler issued. -/
structure HResult where
  status : Nat
  success : Bool
  store : Store
  calls : List MgrCall
deriving DecidableEq, Repr

/-- Request body of `POST /tasks` (`create_task` in `app.py`): a JSON
object with optional keys `list_id`, `title`, `description`.  `none` for
the whole body is a missing/unparsable body, for which Flask's `get_json`
gives the handler no data. -/
structure CreateTaskBody where
  list_id : Option Nat
  title : Option String
  description : Option String
deriving DecidableEq, Repr

/-- Python's `not data` is true for the empty JSON object. -/
def CreateTaskBody.isEmpty (b : CreateTaskBody) : Bool :=
  b.list_id.isNone && b.title.isNone && b.description.isNone

/-- Request body of `POST /tasks/<id>/move` (`move_task` in `app.py`). -/
structure MoveBody where
  source_list_id : Option Nat
  target_list_id : Option Nat
deriving DecidableEq, Repr

/-- Python's `not data` is true for the empty JSON object. -/
def MoveBody.isEmpty (b : MoveBody) : Bool :=
  b.source_list_id.isNone && b.target_list_id.isNone

/-- Request body of `POST /lists` and `PUT /lists/<id>` (`create_list` and
`update_list` in `app.py`): optional keys `name` and `description`. -/
structure ListBody where
  name : Option String
  description : Option String
deriving DecidableEq, Repr

/-- Python's `not data` is true for the empty JSON object. -/
def ListBody.isEmpty (b : ListBody) : Bool :=
  b.name.isNone && b.description.isNone

namespace Api

/-- The except-chain of `create_task` in `app.py`: `except ValueError` →
400, `except KeyError` → 404, `except Exception` → 500. -/
def createTaskExcept : MgrErr → Nat
  | .validation => 400
  | .notFound => 404
  | .otherExc => 500

/-- The except-chain of `update_task` in `app.py`: `except KeyError` → 404,
`except ValueError` → 400, `except Exception` → 500. -/
def updateTaskExcept : MgrErr → Nat
  | .validation => 400
  | .notFound => 404
  | .otherExc => 500

/-- The except-chain of `delete_task` in `app.py`: `except KeyError` → 404,
`except Exception` → 500; there is no `ValueError` branch, so a
`ValueError` would fall into the catch-all. -/
def deleteTaskExcept : MgrErr → Nat
  | .validation => 500
  | .notFound => 404
  | .otherExc => 500

/-- The except-chain of `move_task` in `app.py`: `except ValueError` → 400,
`except KeyError` → 404, `except Exception` → 500. -/
def moveTaskExcept : MgrErr → Nat
  | .validation => 400
  | .notFound => 404
  | .otherExc => 500

/-- The except-chain of `create_list` in `app.py`: `except ValueError` →
400, `except Exception` → 500; there is no `KeyError` branch, so a
`KeyError` would fall into the catch-all. -/
def createListExcept : MgrErr → Nat
  | .validation => 400
  | .notFound => 500
  | .otherExc => 500

/-- The except-chain of `update_list` in `app.py`: `except KeyError` → 404,
`except ValueError` → 400, `except Exception` → 500. -/
def updateListExcept : MgrErr → Nat
  | .validation => 400
  | .notFound => 404
  | .otherExc => 500

/-- The except-chain of `delete_list` in `app.py`: `except KeyError` → 404,
`except Exception` → 500; there is no `ValueError` branch. -/
def deleteListExcept : MgrErr → Nat
  | .validation => 500
  | .notFound => 404
  | .otherExc => 500

/-- The except-chain of `get_task` and `get_list` in `app.py`: `except
KeyError` → 404, `except Exception` → 500. -/
def getLookupExcept : MgrErr → Nat
  | .validation => 500
  | .notFound => 404
  | .otherExc => 500

/-- Embeds `get_all_tasks` (`app.py` GET /tasks): iterates `get_lists` and
`get_tasks` per list, answers 200; a read, so no mutating call and no
`save`. -/
def get_all_tasks (s : Store) : HResult :=
  { status := 200, success := true, store := s, calls := [] }

/-- Embeds `get_task` (`app.py` GET /tasks/<id>): searches every list with
`manager.get_task`, 200 on the first hit, otherwise 404; a read, no
mutating call. -/
def get_task (s : Store) (task_id : Nat) : HResult :=
  match s.lists.find? (fun l => (s.get_task l.id task_id).isSome) with
  | some _ => { status := 200, success := true, store := s, calls := [] }
  | none => { status := 404, success := false, store := s, calls := [] }

/-- Embeds `create_task` (`app.py` POST /tasks): empty body → 400, missing
`list_id` or `title` → 400; otherwise builds the task (description
defaulting to the empty string, status and priority unset) and calls
`add_task_to_list` then `save`.  The except-chain of the handler maps
`ValueError` → 400, `KeyError` → 404, anything else → 500; `save` runs only
when `add_task_to_list` returned normally. -/
def create_task (s : Store) (body : Option CreateTaskBody) : HResult :=
  match body with
  | none => { status := 400, success := false, store := s, calls := [] }
  | some b =>
    if b.isEmpty then { status := 400, success := false, store := s, calls := [] }
    else match b.list_id with
    | none => { status := 400, success := false, store := s, calls := [] }
    | some list_id =>
      match b.title with
      | none => { status := 400, success := false, store := s, calls := [] }
      | some title =>
        match s.add_task_to_list list_id title (b.description.getD "") none none with
        | .ok (_, s2) =>
          { status := 201, success := true, store := s2,
            calls := [.addTask, .save] }
        | .error e =>
          { status := createTaskExcept e, success := false, store := s,
            calls := [.addTask] }

/-- Embeds `update_task` (`app.py` PUT /tasks/<id>): empty body → 400;
otherwise searches every list with `manager.get_task` and updates the first
hit through `manager.update_task`, forwarding the whole body as `**data`;
no hit → 404.  The except-chain maps `KeyError` → 404, `ValueError` → 400,
anything else → 500.  The handler never calls `save`. -/
def update_task (s : Store) (task_id : Nat) (body : Option TaskPatch) : HResult :=
  match body with
  | none => { status := 400, success := false, store := s, calls := [] }
  | some p =>
    if p.isEmpty then { status := 400, success := false, store := s, calls := [] }
    else match s.lists.find? (fun l => (s.get_task l.id task_id).isSome) with
    | none => { status := 404, success := false, store := s, calls := [] }
    | some l =>
      match s.update_task l.id task_id p with
      | .ok s2 =>
        { status := 200, success := true, store := s2, calls := [.updateTask] }
      | .error e =>
        { status := updateTaskExcept e, success := false, store := s,
          calls := [.updateTask] }

/-- Embeds `delete_task` (`app.py` DELETE /tasks/<id>): searches every list
and deletes the first hit through `manager.delete_task`; no hit → 404.  The
except-chain has only `KeyError` → 404 and a catch-all → 500 (no
`ValueError` branch).  The handler never calls `save`. -/
def delete_task (s : Store) (task_id : Nat) : HResult :=
  match s.lists.find? (fun l => (s.get_task l.id task_id).isSome) with
  | none => { status := 404, success := false, store := s, calls := [] }
  | some l =>
    match s.delete_task l.id task_id with
    | .ok s2 =>
      { status := 200, success := true, store := s2, calls := [.deleteTask] }
    | .error e =>
      { status := deleteTaskExcept e, success := false, store := s,
        calls := [.deleteTask] }

/-- Embeds `move_task` (`app.py` POST /tasks/<id>/move): empty body → 400,
missing `source_list_id` or `target_list_id` → 400; otherwise calls
`manager.move_task_to_list`.  The except-chain maps `ValueError` → 400,
`KeyError` → 404, anything else → 500.  The handler never calls `save`. -/
def move_task (s : Store) (task_id : Nat) (body : Option MoveBody) : HResult :=
  match body with
  | none => { status := 400, success := false, store := s, calls := [] }
  | some b =>
    if b.isEmpty then { status := 400, success := false, store := s, calls := [] }
    else match b.source_list_id, b.target_list_id with
    | some src, some tgt =>
      (match s.move_task_to_list src task_id tgt with
      | .ok (_, s2) =>
        { status := 200, success := true, store := s2, calls := [.moveTask] }
      | .error e =>
        { status := moveTaskExcept e, success := false, store := s,
          calls := [.moveTask] })
    | _, _ => { status := 400, success := false, store := s, calls := [] }

/-- Embeds `get_all_lists` (`app.py` GET /lists): answers 200 with every
list; a read, no mutating call and no `save`. -/
def get_all_lists (s : Store) : HResult :=
  { status := 200, success := true, store := s, calls := [] }

/-- Embeds `get_list` (`app.py` GET /lists/<id>): `manager.get_list`,
absent → 404, otherwise 200; a read, no mutating call. -/
def get_list (s : Store) (list_id : Nat) : HResult :=
  match s.get_list list_id with
  | none => { status := 404, success := false, store := s, calls := [] }
  | some _ => { status := 200, success := true, store := s, calls := [] }

/-- Embeds `create_list` (`app.py` POST /lists): empty body → 400, missing
`name` → 400; otherwise `manager.create_list` with the description
defaulting to the empty string.  The except-chain has only `ValueError` →
400 and a catch-all → 500 (no `KeyError` branch).  The handler never calls
`save`. -/
def create_list (s : Store) (body : Option ListBody) : HResult :=
  match body with
  | none => { status := 400, success := false, store := s, calls := [] }
  | some b =>
    if b.isEmpty then { status := 400, success := false, store := s, calls := [] }
    else match b.name with
    | none => { status := 400, success := false, store := s, calls := [] }
    | some name =>
      match s.create_list name (b.description.getD "") with
      | .ok (_, s2) =>
        { status := 201, success := true, store := s2, calls := [.createList] }
      | .error e =>
        { status := createListExcept e, success := false, store := s,
          calls := [.createList] }

/-- Embeds `update_list` (`app.py` PUT /lists/<id>): empty body → 400,
absent list → 404; a provided `name` goes through `manager.rename_list`
(`ValueError` → 400, `KeyError` → 404, catch-all → 500); a provided
`description` is then assigned directly on the fetched object
(`task_list.description = data['description']`), which by Python aliasing
rewrites the stored list without any manager call — so the trace records
nothing for it.  The handler never calls `save`. -/
def update_list (s : Store) (list_id : Nat) (body : Option ListBody) : HResult :=
  match body with
  | none => { status := 400, success := false, store := s, calls := [] }
  | some b =>
    if b.isEmpty then { status := 400, success := false, store := s, calls := [] }
    else match s.get_list list_id with
    | none => { status := 404, success := false, store := s, calls := [] }
    | some _ =>
      match b.name with
      | some new_name =>
        (match s.rename_list list_id new_name with
        | .ok s1 =>
          let s2 := match b.description with
            | some d =>
              { s1 with lists := s1.lists.map (fun l =>
                  if l.id = list_id then { l with description := d } else l) }
            | none => s1
          { status := 200, success := true, store := s2, calls := [.renameList] }
        | .error e =>
          { status := updateListExcept e, success := false, store := s,
            calls := [.renameList] })
      | none =>
        let s2 := match b.description with
          | some d =>
            { s with lists := s.lists.map (fun l =>
                if l.id = list_id then { l with description := d } else l) }
          | none => s
        { status := 200, success := true, store := s2, calls := [] }

/-- Embeds `delete_list` (`app.py` DELETE /lists/<id>):
`manager.delete_list`, with `KeyError` → 404 and a catch-all → 500 (no
`ValueError` branch).  The handler never calls `save`. -/
def delete_list (s : Store) (list_id : Nat) : HResult :=
  match s.delete_list list_id with
  | .ok s2 =>
    { status := 200, success := true, store := s2, calls := [.deleteList] }
  | .error e =>
    { status := deleteListExcept e, success := false, store := s,
      calls := [.deleteList] }

end Api

/-- The ids of all lists of the store, in creation order. -/
def Store.listIds (s : Store) : List Nat :=
  s.lists.map TaskList.id

/-- The ids of all tasks of the store, in list order then insertion
order. -/
def Store.taskIds (s : Store) : List Nat :=
  (s.lists.map (fun l => l.tasks.map Task.id)).flatten

/-- The store invariant the spec states in §3: list ids are unique, task
ids are unique across the whole store (expressed per list and across
pairs of distinct lists), and every id already handed out is below the
corresponding next-id counter (ids are never reused). -/
def Store.WF (s : Store) : Prop :=
  s.listIds.Nodup ∧
  (∀ l ∈ s.lists, (l.tasks.map Task.id).Nodup) ∧
  (∀ l1 ∈ s.lists, ∀ l2 ∈ s.lists, l1.id ≠ l2.id →
    ∀ x ∈ l1.tasks, ∀ y ∈ l2.tasks, x.id ≠ y.id) ∧
  (∀ l ∈ s.lists, l.id < s.nextListId) ∧
  (∀ l ∈ s.lists, ∀ x ∈ l.tasks, x.id < s.nextTaskId)

instance (s : Store) : Decidable s.WF := by
  unfold Store.WF
  infer_instance

/-- One manager operation of a run, for stating lifetime properties of id
allocation over arbitrary call sequences. -/
inductive Op where
  | createList (name description : String)
  | renameList (list_id : Nat) (new_name : String)
  | deleteList (list_id : Nat)
  | addTask (list_id : Nat) (title description : String)
      (status : Option TaskStatus) (priority : Option Priority)
  | updateTask (list_id task_id : Nat) (patch : TaskPatch)
  | deleteTask (list_id task_id : Nat)
  | moveTask (source_list_id task_id target_list_id : Nat)
deriving DecidableEq, Repr

/-- Apply one manager operation; a raised error leaves the store as it was
(the modelled operations validate before mutating).  Besides the new store,
return the list ids and the task ids the operation assigned (empty unless
the operation is a successful create). -/
def Store.applyOp (s : Store) : Op → Store × List Nat × List Nat
  | .createList n d =>
    match s.create_list n d with
    | .ok (l, s2) => (s2, [l.id], [])
    | .error _ => (s, [], [])
  | .renameList i n =>
    match s.rename_list i n with
    | .ok s2 => (s2, [], [])
    | .error _ => (s, [], [])
  | .deleteList i =>
    match s.delete_list i with
    | .ok s2 => (s2, [], [])
    | .error _ => (s, [], [])
  | .addTask i t d st pr =>
    match s.add_task_to_list i t d st pr with
    | .ok (tk, s2) => (s2, [], [tk.id])
    | .error _ => (s, [], [])
  | .updateTask i ti p =>
    match s.update_task i ti p with
    | .ok s2 => (s2, [], [])
    | .error _ => (s, [], [])
  | .deleteTask i ti =>
    match s.delete_task i ti with
    | .ok s2 => (s2, [], [])
    | .error _ => (s, [], [])
  | .moveTask i ti j =>
    match s.move_task_to_list i ti j with
    | .ok (_, s2) => (s2, [], [])
    | .error _ => (s, [], [])

/-- Run a sequence of manager operations, collecting the assigned list ids
and task ids in order of assignment. -/
def Store.runOps (s : Store) : List Op → Store × List Nat × List Nat
  | [] => (s, [], [])
  | op :: ops =>
    let r1 := s.applyOp op
    let r2 := r1.1.runOps ops
    (r2.1, r1.2.1 ++ r2.2.1, r1.2.2 ++ r2.2.2)

/-- A concrete task used by the concrete evaluations below, matching the
worked example of spec §8. -/
def sampleTask : Task :=
  { id := 1, title := "Ship spec", description := "",
    status := .pending, priority := .medium }

/-- A concrete store with two lists, list 1 owning `sampleTask` and list 2
empty, used by the concrete evaluations below. -/
def sampleStore : Store :=
  { lists :=
      [ { id := 1, name := "Work", description := "", tasks := [sampleTask] },
        { id := 2, name := "Home", description := "", tasks := [] } ],
    nextListId := 3, nextTaskId := 2 }

/-! ## Helper lemmas -/

theorem status_decode_encode (st : TaskStatus) :
    TaskStatus.decode st.encode = some st := by
  cases st <;> rfl

theorem priority_decode_encode (pr : Priority) :
    Priority.decode pr.encode = some pr := by
  cases pr <;> rfl

theorem saved_task_load_save (t : Task) : t.save.load = some t := by
  cases t
  simp [Task.save, SavedTask.load, status_decode_encode,
    priority_decode_encode]

theorem saved_task_loadAll_save (ts : List Task) :
    SavedTask.loadAll (ts.map Task.save) = some ts := by
  induction ts with
  | nil => rfl
  | cons t ts ih =>
    simp [SavedTask.loadAll, saved_task_load_save, ih]

theorem saved_list_load_save (l : TaskList) : l.save.load = some l := by
  cases l
  simp [TaskList.save, SavedList.load, saved_task_loadAll_save]

theorem saved_list_loadAll_save (ls : List TaskList) :
    SavedList.loadAll (ls.map TaskList.save) = some ls := by
  induction ls with
  | nil => rfl
  | cons l ls ih =>
    simp [SavedList.loadAll, saved_list_load_save, ih]

theorem Store.get_list_map (s : Store) (i : Nat) (f : TaskList → TaskList)
    (hf : ∀ l, (f l).id = l.id) :
    Store.get_list { s with lists := s.lists.map f } i = (s.get_list i).map f := by
  unfold Store.get_list
  rw [List.find?_map]
  have hp : ((fun l => decide (l.id = i)) ∘ f) =
      (fun l : TaskList => decide (l.id = i)) := by
    funext l
    simp [Function.comp, hf]
  rw [hp]

/-! ## Claim theorems -/

/-- Claim C2: for every store, `save()` followed by `load()` yields the
original store back: `load (save s) = some s`, so the persisted document
round-trips the lists and tasks with all attributes in the same order. -/
theorem load_save_roundtrip (s : Store) : s.save.load = some s := by
  cases s
  simp [Store.save, SavedDoc.load, saved_list_loadAll_save]

/-- Claim C7: deleting a present list succeeds and removes the list with
every task it owned: afterwards the list lookup is absent and `get_task` on
that list id is absent for every task id. -/
theorem delete_list_cascade (s : Store) (list_id : Nat)
    (h : (s.get_list list_id).isSome) :
    ∃ s2, s.delete_list list_id = .ok s2 ∧
      s2.get_list list_id = none ∧
      ∀ task_id, s2.get_task list_id task_id = none := by
  obtain ⟨l, hl⟩ := Option.isSome_iff_exists.mp h
  have hgl : Store.get_list
      { s with lists := s.lists.filter (fun l2 => l2.id ≠ list_id) } list_id
      = none := by
    unfold Store.get_list
    rw [List.find?_eq_none]
    intro x hx
    have := (List.mem_filter.mp hx).2
    simpa using this
  refine ⟨_, ?_, hgl, ?_⟩
  · unfold Store.delete_list
    rw [hl]
  · intro task_id
    unfold Store.get_task
    rw [hgl]
    rfl

/-- Witness for C7 at a concrete store: deleting list 1 of `sampleStore`
makes the list and its task unreachable. -/
theorem delete_list_cascade_check :
    ∃ s2, sampleStore.delete_list 1 = .ok s2 ∧
      s2.get_list 1 = none ∧
      ∀ task_id, s2.get_task 1 task_id = none :=
  delete_list_cascade sampleStore 1 (by decide)

/-- Claim C10: every POST/PUT handler (`create_task`, `update_task`,
`move_task`, `create_list`, `update_list`) answers 400 with `success=false`
to a missing body (`none`) or an empty JSON object, leaving the store
unchanged and issuing no mutating manager call. -/
theorem empty_body_rejected (s : Store) (task_id list_id : Nat) :
    Api.create_task s none = ⟨400, false, s, []⟩ ∧
    Api.create_task s (some ⟨none, none, none⟩) = ⟨400, false, s, []⟩ ∧
    Api.update_task s task_id none = ⟨400, false, s, []⟩ ∧
    Api.update_task s task_id (some TaskPatch.empty) = ⟨400, false, s, []⟩ ∧
    Api.move_task s task_id none = ⟨400, false, s, []⟩ ∧
    Api.move_task s task_id (some ⟨none, none⟩) = ⟨400, false, s, []⟩ ∧
    Api.create_list s none = ⟨400, false, s, []⟩ ∧
    Api.create_list s (some ⟨none, none⟩) = ⟨400, false, s, []⟩ ∧
    Api.update_list s list_id none = ⟨400, false, s, []⟩ ∧
    Api.update_list s list_id (some ⟨none, none⟩) = ⟨400, false, s, []⟩ :=
  ⟨rfl, rfl, rfl, rfl, rfl, rfl, rfl, rfl, rfl, rfl⟩

/-- Claim C8: creating a list with an empty name fails validation and maps
to HTTP 400 regardless of the description, with no list added; renaming an
existing list to an empty name fails the same way. -/
theorem empty_name_fails_validation (s : Store) (d : Option String)
    (list_id : Nat) (hl : (s.get_list list_id).isSome) :
    Api.create_list s (some ⟨some "", d⟩) = ⟨400, false, s, [.createList]⟩ ∧
    Api.update_list s list_id (some ⟨some "", d⟩) =
      ⟨400, false, s, [.renameList]⟩ := by
  obtain ⟨l, hl2⟩ := Option.isSome_iff_exists.mp hl
  constructor
  · rfl
  · simp [Api.update_list, hl2, Store.rename_list, ListBody.isEmpty,
      Api.updateListExcept]

/-- Witness for C8 at a concrete store: list 1 of `sampleStore` exists, and
both the empty-name create and the empty-name rename answer 400 and leave
the store as it was. -/
theorem empty_name_fails_validation_check :
    Api.create_list sampleStore (some ⟨some "", some "x"⟩) =
      ⟨400, false, sampleStore, [.createList]⟩ ∧
    Api.update_list sampleStore 1 (some ⟨some "", some "x"⟩) =
      ⟨400, false, sampleStore, [.renameList]⟩ :=
  empty_name_fails_validation sampleStore (some "x") 1 (by decide)

/-- Claim C3 evidence: on `sampleStore` the move handler commits a mutation
(status 200, store changed — the task moved from list 1 to list 2) without
calling `save`, and the list-delete handler likewise commits without
`save`; only the task-create handler ends with `save`.  This contradicts
the claim that the HTTP layer calls `save()` after every committed
mutation. -/
theorem mutation_committed_without_save :
    (Api.move_task sampleStore 1 (some ⟨some 1, some 2⟩)).status = 200 ∧
    (Api.move_task sampleStore 1 (some ⟨some 1, some 2⟩)).store ≠ sampleStore ∧
    MgrCall.save ∉ (Api.move_task sampleStore 1 (some ⟨some 1, some 2⟩)).calls ∧
    (Api.delete_list sampleStore 2).status = 200 ∧
    (Api.delete_list sampleStore 2).store ≠ sampleStore ∧
    MgrCall.save ∉ (Api.delete_list sampleStore 2).calls ∧
    (Api.create_task sampleStore (some ⟨some 1, some "Call bank", none⟩)).status = 201 ∧
    MgrCall.save ∈ (Api.create_task sampleStore (some ⟨some 1, some "Call bank", none⟩)).calls := by
  decide

/-- Claim C5 evidence: a `PUT /lists/1` request whose body carries only a
`description` answers 200 and changes the stored list's description, yet
issues no manager call at all — the handler mutated the returned object
directly, exactly the bug the spec flags. -/
theorem update_list_mutates_without_manager :
    (Api.update_list sampleStore 1 (some ⟨none, some "All work items"⟩)).status = 200 ∧
    (Api.update_list sampleStore 1 (some ⟨none, some "All work items"⟩)).calls = [] ∧
    (Api.update_list sampleStore 1 (some ⟨none, some "All work items"⟩)).store ≠ sampleStore ∧
    ((Api.update_list sampleStore 1 (some ⟨none, some "All work items"⟩)).store.get_list 1).map
      TaskList.description = some "All work items" := by
  decide

/-- Claim C9: `update_task` on an existing task rejects a patch carrying
any unknown field with `ValidationError`, and otherwise applies exactly the
provided fields: every provided field takes its new value and every
unprovided field keeps its old one (the `getD` on the right evaluates to
the patch value when provided and to the old value when not). -/
theorem update_task_partial_and_unknown (s : Store) (list_id task_id : Nat)
    (p : TaskPatch) (old : Task)
    (hold : s.get_task list_id task_id = some old) :
    (p.unknownKeys ≠ [] → s.update_task list_id task_id p = .error .validation) ∧
    (p.unknownKeys = [] → ∃ s2, s.update_task list_id task_id p = .ok s2 ∧
      s2.get_task list_id task_id = some
        { id := old.id,
          title := p.title.getD old.title,
          description := p.description.getD old.description,
          status := p.status.getD old.status,
          priority := p.priority.getD old.priority }) := by
  cases hgl : s.get_list list_id with
  | none => simp [Store.get_task, hgl] at hold
  | some L =>
    have hfind : L.tasks.find? (fun t => t.id = task_id) = some old := by
      simpa [Store.get_task, hgl] using hold
    have hLid : L.id = list_id := by
      have hfl : List.find? (fun l => decide (l.id = list_id)) s.lists = some L := by
        simpa [Store.get_list] using hgl
      simpa using List.find?_some hfl
    have holdid : old.id = task_id := by
      simpa using List.find?_some hfind
    constructor
    · intro hne
      simp [Store.update_task, hgl, hfind, hne]
    · intro heq
      refine ⟨{ s with lists := s.lists.map (fun l2 =>
        if l2.id = list_id then
          { l2 with tasks := l2.tasks.map (fun t =>
              if t.id = task_id then t.applyPatch p else t) }
        else l2) }, ?_, ?_⟩
      · simp [Store.update_task, hgl, hfind, heq]
      · have hmap := Store.get_list_map s list_id (fun l2 =>
          if l2.id = list_id then
            { l2 with tasks := l2.tasks.map (fun t =>
                if t.id = task_id then t.applyPatch p else t) }
          else l2) (by intro l; by_cases h : l.id = list_id <;> simp [h])
        rw [Store.get_task, hmap, hgl]
        simp only [Option.map_some', Option.some_bind, hLid, if_pos]
        rw [List.find?_map]
        have hp : ((fun t => decide (t.id = task_id)) ∘
            (fun t : Task => if t.id = task_id then t.applyPatch p else t)) =
            (fun t : Task => decide (t.id = task_id)) := by
          funext t
          by_cases h : t.id = task_id <;> simp [Function.comp, h, Task.applyPatch]
        rw [hp, hfind]
        simp [Task.applyPatch, holdid]

/-- Witness for C9 at a concrete store: on `sampleStore`, a patch with an
unknown key is rejected with `ValidationError`, and a patch setting only
the status updates the status and keeps title, description and priority. -/
theorem update_task_partial_and_unknown_check :
    (sampleStore.update_task 1 1
      { title := none, description := none, status := none, priority := none,
        unknownKeys := ["titel"] } = .error .validation) ∧
    (∃ s2, sampleStore.update_task 1 1
      { title := none, description := none, status := some .done,
        priority := none, unknownKeys := [] } = .ok s2 ∧
      s2.get_task 1 1 = some
        { id := 1, title := "Ship spec", description := "",
          status := .done, priority := .medium }) := by
  have h := update_task_partial_and_unknown sampleStore 1 1
    { title := none, description := none, status := some .done,
      priority := none, unknownKeys := [] } sampleTask (by decide)
  have h2 := update_task_partial_and_unknown sampleStore 1 1
    { title := none, description := none, status := none, priority := none,
      unknownKeys := ["titel"] } sampleTask (by decide)
  exact ⟨h2.1 (by decide), h.2 rfl⟩

/-- Claim C1 counterexample: when the target list is the source list
itself, the claim's premises hold (list 1 owns task 1 and list 1 exists),
the move succeeds, and yet `get_task` on the source afterwards still
returns the task — the operation removed it and appended it back to the
same collection, so it is not absent as the claim requires for every
store/source/target combination. -/
theorem move_task_same_list_not_removed :
    sampleStore.move_task_to_list 1 1 1 = .ok (sampleTask, sampleStore) ∧
    sampleStore.get_task 1 1 = some sampleTask :=
  ⟨rfl, rfl⟩

/-- Claim C1 (amended): on a store satisfying the id-uniqueness invariant
`Store.WF`, when list A owns task t, list B exists and B is a different
list than A, the move succeeds atomically (one state transition), returns
the task unchanged, and afterwards the task is absent from A and present
in B with identical id, title, description, status and priority. -/
theorem move_task_to_list_spec (s : Store) (A t B : Nat) (task : Task)
    (hwf : s.WF) (hAB : A ≠ B)
    (hA : s.get_task A t = some task) (hB : (s.get_list B).isSome) :
    ∃ s2, s.move_task_to_list A t B = .ok (task, s2) ∧
      s2.get_task A t = none ∧ s2.get_task B t = some task := by
  cases hglA : s.get_list A with
  | none => simp [Store.get_task, hglA] at hA
  | some LA =>
  cases hglB : s.get_list B with
  | none => simp [hglB] at hB
  | some LB =>
  have hfind : LA.tasks.find? (fun t2 => t2.id = t) = some task := by
    simpa [Store.get_task, hglA] using hA
  have hflA : List.find? (fun l => decide (l.id = A)) s.lists = some LA := by
    simpa [Store.get_list] using hglA
  have hflB : List.find? (fun l => decide (l.id = B)) s.lists = some LB := by
    simpa [Store.get_list] using hglB
  have hLAid : LA.id = A := by simpa using List.find?_some hflA
  have hLBid : LB.id = B := by simpa using List.find?_some hflB
  have hLAmem : LA ∈ s.lists := List.mem_of_find?_eq_some hflA
  have hLBmem : LB ∈ s.lists := List.mem_of_find?_eq_some hflB
  have htaskid : task.id = t := by simpa using List.find?_some hfind
  have htaskmem : task ∈ LA.tasks := List.mem_of_find?_eq_some hfind
  have hdisj : ∀ y ∈ LB.tasks, y.id ≠ t := by
    intro y hy
    have h3 := hwf.2.2.1 LA hLAmem LB hLBmem (by rw [hLAid, hLBid]; exact hAB)
    have := h3 task htaskmem y hy
    omega
  have hrm : ∀ l, (Store.removeTaskStep A t l).id = l.id := by
    intro l
    unfold Store.removeTaskStep
    split <;> rfl
  have hap : ∀ l, (Store.appendTaskStep B task l).id = l.id := by
    intro l
    unfold Store.appendTaskStep
    split <;> rfl
  have hidpres : ∀ l, ((Store.appendTaskStep B task ∘
      Store.removeTaskStep A t) l).id = l.id := by
    intro l
    simp [Function.comp, hap, hrm]
  have hrmLA : Store.removeTaskStep A t LA =
      { LA with tasks := LA.tasks.filter (fun t2 => t2.id ≠ t) } := by
    unfold Store.removeTaskStep
    rw [if_pos hLAid]
  have hapLA : Store.appendTaskStep B task
      { LA with tasks := LA.tasks.filter (fun t2 => t2.id ≠ t) } =
      { LA with tasks := LA.tasks.filter (fun t2 => t2.id ≠ t) } := by
    unfold Store.appendTaskStep
    rw [if_neg]
    show ¬LA.id = B
    rw [hLAid]
    exact hAB
  have hrmLB : Store.removeTaskStep A t LB = LB := by
    unfold Store.removeTaskStep
    rw [if_neg]
    rw [hLBid]
    exact fun h => hAB h.symm
  have hapLB : Store.appendTaskStep B task LB =
      { LB with tasks := LB.tasks ++ [task] } := by
    unfold Store.appendTaskStep
    rw [if_pos hLBid]
  refine ⟨{ s with lists := s.lists.map (Store.appendTaskStep B task ∘ Store.removeTaskStep A t) }, ?_, ?_, ?_⟩
  · simp [Store.move_task_to_list, hglA, hfind, hglB, List.map_map]
  · have hmap := Store.get_list_map s A
      (Store.appendTaskStep B task ∘ Store.removeTaskStep A t) hidpres
    rw [Store.get_task, hmap, hglA]
    simp only [Option.map_some', Option.some_bind, Function.comp]
    rw [hrmLA, hapLA]
    rw [List.find?_eq_none]
    intro x hx
    have := (List.mem_filter.mp hx).2
    simpa using this
  · have hmap := Store.get_list_map s B
      (Store.appendTaskStep B task ∘ Store.removeTaskStep A t) hidpres
    rw [Store.get_task, hmap, hglB]
    simp only [Option.map_some', Option.some_bind, Function.comp]
    rw [hrmLB, hapLB]
    rw [List.find?_append]
    have hnone : LB.tasks.find? (fun t2 => decide (t2.id = t)) = none := by
      rw [List.find?_eq_none]
      intro y hy
      simpa using hdisj y hy
    rw [hnone]
    simp [htaskid]

/-- Witness for the amended C1 at a concrete store: moving task 1 from
list 1 to list 2 of `sampleStore` empties list 1 and makes the identical
task reachable in list 2. -/
theorem move_task_to_list_spec_check :
    ∃ s2, sampleStore.move_task_to_list 1 1 2 = .ok (sampleTask, s2) ∧
      s2.get_task 1 1 = none ∧ s2.get_task 2 1 = some sampleTask :=
  move_task_to_list_spec sampleStore 1 1 2 sampleTask (by decide) (by decide)
    (by decide) (by decide)

/-- Claim C4: the transport layer maps every failure the manager can raise
to the claimed status: a `ValidationError` (`ValueError`) to 400 (list
create, list rename, task update), a `NotFoundError` (`KeyError`) to 404
(task create, move, list delete), an absent lookup to 404 (single-list get,
task search in the get/update/delete task handlers, list lookup in the
list-update handler), and each handler's catch-all maps any other
exception to 500. -/
theorem transport_error_mapping :
    (∀ (s : Store) (nm d : String),
      s.create_list nm d = .error .validation →
      Api.create_list s (some ⟨some nm, some d⟩) = ⟨400, false, s, [.createList]⟩) ∧
    (∀ (s : Store) (li : Nat) (nm : String) (d : Option String) (L : TaskList),
      s.get_list li = some L →
      s.rename_list li nm = .error .validation →
      Api.update_list s li (some ⟨some nm, d⟩) = ⟨400, false, s, [.renameList]⟩) ∧
    (∀ (s : Store) (ti : Nat) (p : TaskPatch) (L : TaskList),
      s.lists.find? (fun l2 => (s.get_task l2.id ti).isSome) = some L →
      p.isEmpty = false →
      s.update_task L.id ti p = .error .validation →
      Api.update_task s ti (some p) = ⟨400, false, s, [.updateTask]⟩) ∧
    (∀ (s : Store) (li : Nat) (t : String),
      s.add_task_to_list li t "" none none = .error .notFound →
      Api.create_task s (some ⟨some li, some t, none⟩) = ⟨404, false, s, [.addTask]⟩) ∧
    (∀ (s : Store) (ti src tgt : Nat),
      s.move_task_to_list src ti tgt = .error .notFound →
      Api.move_task s ti (some ⟨some src, some tgt⟩) = ⟨404, false, s, [.moveTask]⟩) ∧
    (∀ (s : Store) (li : Nat),
      s.delete_list li = .error .notFound →
      Api.delete_list s li = ⟨404, false, s, [.deleteList]⟩) ∧
    (∀ (s : Store) (li : Nat),
      s.get_list li = none →
      Api.get_list s li = ⟨404, false, s, []⟩) ∧
    (∀ (s : Store) (ti : Nat),
      s.lists.find? (fun l2 => (s.get_task l2.id ti).isSome) = none →
      Api.get_task s ti = ⟨404, false, s, []⟩ ∧
      Api.delete_task s ti = ⟨404, false, s, []⟩) ∧
    (∀ (s : Store) (ti : Nat) (p : TaskPatch),
      s.lists.find? (fun l2 => (s.get_task l2.id ti).isSome) = none →
      p.isEmpty = false →
      Api.update_task s ti (some p) = ⟨404, false, s, []⟩) ∧
    (∀ (s : Store) (li : Nat) (b : ListBody),
      s.get_list li = none →
      b.isEmpty = false →
      Api.update_list s li (some b) = ⟨404, false, s, []⟩) ∧
    (Api.createTaskExcept .otherExc = 500 ∧
     Api.updateTaskExcept .otherExc = 500 ∧
     Api.deleteTaskExcept .otherExc = 500 ∧
     Api.moveTaskExcept .otherExc = 500 ∧
     Api.createListExcept .otherExc = 500 ∧
     Api.updateListExcept .otherExc = 500 ∧
     Api.deleteListExcept .otherExc = 500 ∧
     Api.getLookupExcept .otherExc = 500) := by
  refine ⟨?_, ?_, ?_, ?_, ?_, ?_, ?_, ?_, ?_, ?_,
    rfl, rfl, rfl, rfl, rfl, rfl, rfl, rfl⟩
  · intro s nm d h
    simp [Api.create_list, ListBody.isEmpty, h, Api.createListExcept]
  · intro s li nm d L hl h
    simp [Api.update_list, ListBody.isEmpty, hl, h, Api.updateListExcept]
  · intro s ti p L hfl hne h
    simp [Api.update_task, hfl, hne, h, Api.updateTaskExcept]
  · intro s li t h
    simp [Api.create_task, CreateTaskBody.isEmpty, h, Api.createTaskExcept]
  · intro s ti src tgt h
    simp [Api.move_task, MoveBody.isEmpty, h, Api.moveTaskExcept]
  · intro s li h
    simp [Api.delete_list, h, Api.deleteListExcept]
  · intro s li h
    simp [Api.get_list, h]
  · intro s ti h
    constructor
    · simp [Api.get_task, h]
    · simp [Api.delete_task, h]
  · intro s ti p hfl hne
    simp [Api.update_task, hfl, hne]
  · intro s li b h hne
    simp [Api.update_list, h, hne]

/-- Witness for C4 at concrete inputs: an empty-name create maps the
`ValidationError` to 400, a move from an absent list maps the
`NotFoundError` to 404, and looking up an absent list id maps to 404. -/
theorem transport_error_mapping_check :
    Api.create_list sampleStore (some ⟨some "", some "x"⟩) =
      ⟨400, false, sampleStore, [.createList]⟩ ∧
    Api.move_task sampleStore 1 (some ⟨some 9, some 2⟩) =
      ⟨404, false, sampleStore, [.moveTask]⟩ ∧
    Api.get_list sampleStore 9 = ⟨404, false, sampleStore, []⟩ :=
  ⟨transport_error_mapping.1 sampleStore "" "x" rfl,
   transport_error_mapping.2.2.2.2.1 sampleStore 1 9 2 rfl,
   transport_error_mapping.2.2.2.2.2.2.1 sampleStore 9 rfl⟩

theorem create_list_ok {s : Store} {n d : String} {l : TaskList} {s2 : Store}
    (h : s.create_list n d = .ok (l, s2)) :
    l.id = s.nextListId ∧ s2.nextListId = s.nextListId + 1 ∧
    s2.nextTaskId = s.nextTaskId := by
  unfold Store.create_list at h
  split at h
  · simp at h
  · simp only [Except.ok.injEq, Prod.mk.injEq] at h
    obtain ⟨h1, h2⟩ := h
    subst h1
    subst h2
    exact ⟨rfl, rfl, rfl⟩

theorem rename_list_ok {s : Store} {li : Nat} {n : String} {s2 : Store}
    (h : s.rename_list li n = .ok s2) :
    s2.nextListId = s.nextListId ∧ s2.nextTaskId = s.nextTaskId := by
  unfold Store.rename_list at h
  split at h
  · simp at h
  · split at h
    · simp at h
    · simp only [Except.ok.injEq] at h
      subst h
      exact ⟨rfl, rfl⟩

theorem delete_list_ok {s : Store} {li : Nat} {s2 : Store}
    (h : s.delete_list li = .ok s2) :
    s2.nextListId = s.nextListId ∧ s2.nextTaskId = s.nextTaskId := by
  unfold Store.delete_list at h
  split at h
  · simp at h
  · simp only [Except.ok.injEq] at h
    subst h
    exact ⟨rfl, rfl⟩

theorem add_task_to_list_ok {s : Store} {li : Nat} {ti d : String}
    {st : Option TaskStatus} {pr : Option Priority} {t : Task} {s2 : Store}
    (h : s.add_task_to_list li ti d st pr = .ok (t, s2)) :
    t.id = s.nextTaskId ∧ s2.nextTaskId = s.nextTaskId + 1 ∧
    s2.nextListId = s.nextListId := by
  unfold Store.add_task_to_list at h
  split at h
  · simp at h
  · simp only [Except.ok.injEq, Prod.mk.injEq] at h
    obtain ⟨h1, h2⟩ := h
    subst h1
    subst h2
    exact ⟨rfl, rfl, rfl⟩

theorem update_task_ok {s : Store} {li ti : Nat} {p : TaskPatch} {s2 : Store}
    (h : s.update_task li ti p = .ok s2) :
    s2.nextListId = s.nextListId ∧ s2.nextTaskId = s.nextTaskId := by
  unfold Store.update_task at h
  split at h
  · simp at h
  · split at h
    · simp at h
    · split at h
      · simp at h
      · simp only [Except.ok.injEq] at h
        subst h
        exact ⟨rfl, rfl⟩

theorem delete_task_ok {s : Store} {li ti : Nat} {s2 : Store}
    (h : s.delete_task li ti = .ok s2) :
    s2.nextListId = s.nextListId ∧ s2.nextTaskId = s.nextTaskId := by
  unfold Store.delete_task at h
  split at h
  · simp at h
  · split at h
    · simp at h
    · simp only [Except.ok.injEq] at h
      subst h
      exact ⟨rfl, rfl⟩

theorem move_task_to_list_ok {s : Store} {li ti lj : Nat} {t : Task}
    {s2 : Store} (h : s.move_task_to_list li ti lj = .ok (t, s2)) :
    s2.nextListId = s.nextListId ∧ s2.nextTaskId = s.nextTaskId := by
  unfold Store.move_task_to_list at h
  split at h
  · simp at h
  · split at h
    · simp at h
    · split at h
      · simp at h
      · simp only [Except.ok.injEq, Prod.mk.injEq] at h
        obtain ⟨h1, h2⟩ := h
        subst h2
        exact ⟨rfl, rfl⟩

theorem applyOp_spec (s : Store) (op : Op) :
    s.nextListId ≤ (s.applyOp op).1.nextListId ∧
    s.nextTaskId ≤ (s.applyOp op).1.nextTaskId ∧
    ((s.applyOp op).2.1 = [] ∨
      ((s.applyOp op).2.1 = [s.nextListId] ∧
        (s.applyOp op).1.nextListId = s.nextListId + 1)) ∧
    ((s.applyOp op).2.2 = [] ∨
      ((s.applyOp op).2.2 = [s.nextTaskId] ∧
        (s.applyOp op).1.nextTaskId = s.nextTaskId + 1)) := by
  cases op with
  | createList n d =>
    cases hc : s.create_list n d with
    | error e => simp [Store.applyOp, hc]
    | ok r =>
      obtain ⟨l, s2⟩ := r
      obtain ⟨h1, h2, h3⟩ := create_list_ok hc
      refine ⟨?_, ?_, Or.inr ⟨?_, ?_⟩, Or.inl ?_⟩ <;>
        simp [Store.applyOp, hc, h1, h2, h3]
  | renameList li n =>
    cases hc : s.rename_list li n with
    | error e => simp [Store.applyOp, hc]
    | ok s2 =>
      obtain ⟨h1, h2⟩ := rename_list_ok hc
      simp [Store.applyOp, hc, h1, h2]
  | deleteList li =>
    cases hc : s.delete_list li with
    | error e => simp [Store.applyOp, hc]
    | ok s2 =>
      obtain ⟨h1, h2⟩ := delete_list_ok hc
      simp [Store.applyOp, hc, h1, h2]
  | addTask li ti d st pr =>
    cases hc : s.add_task_to_list li ti d st pr with
    | error e => simp [Store.applyOp, hc]
    | ok r =>
      obtain ⟨t, s2⟩ := r
      obtain ⟨h1, h2, h3⟩ := add_task_to_list_ok hc
      refine ⟨?_, ?_, Or.inl ?_, Or.inr ⟨?_, ?_⟩⟩ <;>
        simp [Store.applyOp, hc, h1, h2, h3]
  | updateTask li ti p =>
    cases hc : s.update_task li ti p with
    | error e => simp [Store.applyOp, hc]
    | ok s2 =>
      obtain ⟨h1, h2⟩ := update_task_ok hc
      simp [Store.applyOp, hc, h1, h2]
  | deleteTask li ti =>
    cases hc : s.delete_task li ti with
    | error e => simp [Store.applyOp, hc]
    | ok s2 =>
      obtain ⟨h1, h2⟩ := delete_task_ok hc
      simp [Store.applyOp, hc, h1, h2]
  | moveTask li ti lj =>
    cases hc : s.move_task_to_list li ti lj with
    | error e => simp [Store.applyOp, hc]
    | ok r =>
      obtain ⟨t, s2⟩ := r
      obtain ⟨h1, h2⟩ := move_task_to_list_ok hc
      simp [Store.applyOp, hc, h1, h2]

theorem runOps_spec (ops : List Op) : ∀ s : Store,
    ((s.runOps ops).2.1.Pairwise (· < ·) ∧
      ∀ x ∈ (s.runOps ops).2.1, s.nextListId ≤ x) ∧
    ((s.runOps ops).2.2.Pairwise (· < ·) ∧
      ∀ x ∈ (s.runOps ops).2.2, s.nextTaskId ≤ x) := by
  induction ops with
  | nil =>
    intro s
    simp [Store.runOps]
  | cons op ops ih =>
    intro s
    obtain ⟨hm1, hm2, hassign1, hassign2⟩ := applyOp_spec s op
    obtain ⟨⟨ihp1, ihb1⟩, ihp2, ihb2⟩ := ih (s.applyOp op).1
    simp only [Store.runOps]
    refine ⟨⟨?_, ?_⟩, ?_, ?_⟩
    · cases hassign1 with
      | inl h =>
        rw [h, List.nil_append]
        exact ihp1
      | inr h =>
        rw [h.1, List.singleton_append]
        refine List.pairwise_cons.mpr ⟨?_, ihp1⟩
        intro y hy
        have := ihb1 y hy
        omega
    · intro x hx
      rcases List.mem_append.mp hx with hx1 | hx2
      · cases hassign1 with
        | inl h =>
          rw [h] at hx1
          exact absurd hx1 (List.not_mem_nil x)
        | inr h =>
          rw [h.1] at hx1
          have : x = s.nextListId := by simpa using hx1
          omega
      · exact le_trans hm1 (ihb1 x hx2)
    · cases hassign2 with
      | inl h =>
        rw [h, List.nil_append]
        exact ihp2
      | inr h =>
        rw [h.1, List.singleton_append]
        refine List.pairwise_cons.mpr ⟨?_, ihp2⟩
        intro y hy
        have := ihb2 y hy
        omega
    · intro x hx
      rcases List.mem_append.mp hx with hx1 | hx2
      · cases hassign2 with
        | inl h =>
          rw [h] at hx1
          exact absurd hx1 (List.not_mem_nil x)
        | inr h =>
          rw [h.1] at hx1
          have : x = s.nextTaskId := by simpa using hx1
          omega
      · exact le_trans hm2 (ihb2 x hx2)

/-- Claim C6: over any sequence of manager operations run from the initial
store, the list ids handed out by the successful creates are strictly
increasing in order of assignment (hence pairwise distinct, never reused
even across deletes), and the globally allocated task ids likewise. -/
theorem ids_never_reused (ops : List Op) :
    ((Store.empty.runOps ops).2.1.Pairwise (· < ·) ∧
      (Store.empty.runOps ops).2.1.Nodup) ∧
    ((Store.empty.runOps ops).2.2.Pairwise (· < ·) ∧
      (Store.empty.runOps ops).2.2.Nodup) := by
  obtain ⟨⟨h1, _⟩, h2, _⟩ := runOps_spec ops Store.empty
  exact ⟨⟨h1, h1.imp Nat.ne_of_lt⟩, ⟨h2, h2.imp Nat.ne_of_lt⟩⟩

end Todo
